import Mathlib

/-!
Shallow embedding of the eco-commute-planner program (src/main.py).

The program issues two HTTP GET calls (a routing call and a real-time data
call), computes an emission estimate from a static factor table, and prints a
report.  We embed each function over an explicit environment describing the
outcome of its HTTP call, and model Python numbers as exact rationals.  Lines
printed by the fetch functions go to a diagnostic log channel; lines printed
by the driver go to an output channel.  An uncaught Python exception is an
explicit `exn` value.
-/

set_option linter.unusedVariables false

namespace EcoCommute

/-- A coordinate pair (latitude, longitude) in floating-point degrees,
modelled as exact rationals. -/
abbrev Coord := ℚ × ℚ

/-- A JSON route object, reduced to its numeric fields, as an association
list (Python dict with numeric values). -/
abbrev Route := List (String × ℚ)

/-- Parsed JSON body of the routing response: the optional "routes" array
(absent when the key "routes" is missing from the object). -/
structure RoutingBody where
  routes : Option (List Route)
deriving DecidableEq

/-- Parsed JSON body of the real-time data response: an object with numeric
fields, as an association list. -/
abbrev RealtimeBody := List (String × ℚ)

/-- Outcome of an HTTP GET, as observed after raise_for_status and json():
either a well-formed 2xx response with a parsed body, or a transport-level
failure (connection error or non-2xx status), which in the source surfaces
as a requests.RequestException carrying a message. -/
inductive HttpResult (α : Type) where
  | ok (body : α)
  | transportError (msg : String)
deriving DecidableEq

/-- Result of running a Python function: a returned value, or an uncaught
exception carrying its message. -/
inductive PyResult (α : Type) where
  | val (v : α)
  | exn (e : String)
deriving DecidableEq

/-- main.py line 10. -/
def OSM_ROUTING_API_URL : String := "http://router.project-osrm.org/route/v1/driving"

/-- main.py line 11. -/
def REALTIME_DATA_API_URL : String := "http://example.com/realtimeData"

/-- main.py lines 14-19: static per-kilometre emission factor table. -/
def EMISSION_FACTORS : List (String × ℚ) :=
  [("car", 0.271), ("bus", 0.105), ("bike", 0.0), ("walk", 0.0)]

/-- An HTTP GET request: target URL and query parameters. -/
structure HttpRequest where
  url : String
  params : List (String × String)
deriving DecidableEq

/-- String rendering of a rational, standing in for Python float formatting
inside an f-string. -/
def ratStr (q : ℚ) : String := toString q

/-- The path segment appended to the routing base URL on main.py line 25:
longitude-first rendering of the two coordinates. -/
def routePath (start_coords end_coords : Coord) : String :=
  "/" ++ ratStr start_coords.2 ++ "," ++ ratStr start_coords.1 ++ ";"
      ++ ratStr end_coords.2 ++ "," ++ ratStr end_coords.1

/-- The HTTP request issued by fetch_route (main.py lines 24-27).  The mode
argument is in scope but does not occur in the request. -/
def fetch_route_request (start_coords end_coords : Coord) (mode : String) : HttpRequest :=
  { url := OSM_ROUTING_API_URL ++ routePath start_coords end_coords,
    params := [("geometries", "geojson"), ("overview", "simplified")] }

/-- fetch_route (main.py lines 22-37), over the outcome of its HTTP call.
On a transport failure the except clause catches the RequestException,
prints a diagnostic line and returns None.  On a 2xx body, if "routes" is
present and nonempty the first route is returned; otherwise the code raises
a bare Exception("No route found"), which the except clause (which only
catches requests.RequestException) does NOT catch, so it escapes as an
uncaught exception. -/
def fetch_route (start_coords end_coords : Coord) (mode : String)
    (resp : HttpResult RoutingBody) : PyResult (Option Route) × List String :=
  match resp with
  | .transportError e => (.val none, ["Error fetching route: " ++ e])
  | .ok data =>
    match data.routes with
    | some (r :: _) => (.val (some r), [])
    | _ => (.exn "No route found", [])

/-- fetch_realtime_data (main.py lines 40-51), over the outcome of its HTTP
call.  On success it reads the "cost" and "emissions" fields with dict.get,
which yields None for a missing key; on a transport failure it prints a
diagnostic line and returns (None, None). -/
def fetch_realtime_data (mode : String) (resp : HttpResult RealtimeBody) :
    (Option ℚ × Option ℚ) × List String :=
  match resp with
  | .transportError e => ((none, none), ["Error fetching real-time data: " ++ e])
  | .ok data => ((List.lookup "cost" data, List.lookup "emissions" data), [])

/-- calculate_emissions (main.py lines 54-59): factor-table lookup with
dict.get; on a missing mode it prints a diagnostic line and returns None,
otherwise returns distance_km * factor. -/
def calculate_emissions (distance_km : ℚ) (mode : String) : Option ℚ × List String :=
  match List.lookup mode EMISSION_FACTORS with
  | none => (none, ["Emission factor for mode \x27" ++ mode ++ "\x27 not found"])
  | some emission_factor => (some (distance_km * emission_factor), [])

/-- Python truthiness of the value bound to route in main (line 70):
None is falsy, and so is an empty dict. -/
def routeFalsy : Option Route → Bool
  | none => true
  | some r => r.isEmpty

/-- Python truthiness of an optional number (main line 86): None is falsy
and so is the number 0. -/
def numTruthy : Option ℚ → Bool
  | none => false
  | some c => c != 0

/-- Fixed two-decimal rendering of a rational, modelling the .2f format
specifier.  Implemented with integer arithmetic on the reduced fraction so
that concrete instances evaluate inside the kernel; rounding differences at
exact half-hundredths are immaterial to the values this development
evaluates it on. -/
def formatFixed2 (q : ℚ) : String :=
  let neg := q.num < 0
  let n : ℤ := if neg then -q.num else q.num
  let c := ((200 * n + (q.den : ℤ)) / (2 * (q.den : ℤ))).toNat
  let frac := c % 100
  (if neg then "-" else "") ++ toString (c / 100) ++ "." ++
    (if frac < 10 then "0" ++ toString frac else toString frac)

/-- Rendering of a coordinate tuple inside the report header (main line 84). -/
def coordStr (c : Coord) : String := "(" ++ ratStr c.1 ++ ", " ++ ratStr c.2 ++ ")"

/-- Observable outcome of one run of the driver: report lines printed on the
output channel, diagnostic lines printed by the fetch and estimate
functions, and the message of an uncaught exception when one terminates the
process. -/
structure RunResult where
  output : List String
  log : List String
  exn : Option String
deriving DecidableEq

/-- The distance computation of main.py line 75: route[distance] / 1000.0,
with the dict access made explicit as an optional lookup. -/
def main_distance_km (route : Route) : Option ℚ :=
  (List.lookup "distance" route).map (fun d => d / 1000.0)

/-- The body of main (main.py lines 61-89), generalised over the start and
end coordinates and the mode that main hardcodes, and over the outcomes of
the two HTTP calls.  Follows the source line by line: fetch the route;
on a falsy route print the failure line and return; read route[distance]
(an uncaught KeyError when the key is missing); fetch real-time data,
keeping only the cost; estimate emissions; print the report, with the cost
line guarded by truthiness and the emissions line guarded by a None test. -/
def driver (start_location end_location : Coord) (mode : String)
    (routeResp : HttpResult RoutingBody) (rtResp : HttpResult RealtimeBody) : RunResult :=
  match fetch_route start_location end_location mode routeResp with
  | (.exn e, log1) => ⟨[], log1, some e⟩
  | (.val route, log1) =>
    if routeFalsy route then
      ⟨["Couldn\x27t retrieve the route."], log1, none⟩
    else
      let r := route.getD []
      match List.lookup "distance" r with
      | none => ⟨[], log1, some "KeyError: \x27distance\x27"⟩
      | some d =>
        let distance_km := d / 1000
        let rt := fetch_realtime_data mode rtResp
        let real_time_cost := rt.1.1
        let est := calculate_emissions distance_km mode
        let estimated_emissions := est.1
        ⟨["Route from " ++ coordStr start_location ++ " to " ++ coordStr end_location
            ++ " via " ++ mode ++ ":",
          "Distance: " ++ formatFixed2 distance_km ++ " km"]
          ++ (if numTruthy real_time_cost then
                ["Estimated cost: $" ++ formatFixed2 (real_time_cost.getD 0)]
              else [])
          ++ (match estimated_emissions with
              | some v => ["Estimated emissions: " ++ formatFixed2 v ++ " kg CO2"]
              | none => []),
         log1 ++ rt.2 ++ est.2, none⟩

/-- main.py line 63. -/
def start_location : Coord := (40.712776, -74.005974)

/-- main.py line 64. -/
def end_location : Coord := (34.052235, -118.243683)

/-- main (main.py lines 61-89) with the inputs it hardcodes. -/
def main (routeResp : HttpResult RoutingBody) (rtResp : HttpResult RealtimeBody) : RunResult :=
  driver start_location end_location "car" routeResp rtResp

/-- C1: on a well-formed 2xx response whose body has zero routes, fetch_route
does NOT report and return None as the specification states: evaluating the
embedded code on that input shows the bare Exception("No route found") raised
on line 34 escaping the except clause (which only catches RequestException)
as an uncaught exception, with no diagnostic line printed. -/
theorem C1_empty_routes_raises :
    fetch_route start_location end_location "car" (.ok ⟨some []⟩) =
      (.exn "No route found", []) ∧
    fetch_route start_location end_location "car" (.ok ⟨none⟩) =
      (.exn "No route found", []) := ⟨rfl, rfl⟩

/-- C2: on any transport-level failure of the routing call, fetch_route
prints the diagnostic line and returns None rather than raising, and the
driver then prints exactly the could-not-retrieve line, performs no further
calls (its outcome is the same for every real-time environment, which never
gets consulted), and terminates without an uncaught exception. -/
theorem C2_transport_failure_short_circuits (e : String) (rtResp : HttpResult RealtimeBody) :
    fetch_route start_location end_location "car" (.transportError e) =
      (.val none, ["Error fetching route: " ++ e]) ∧
    main (.transportError e) rtResp =
      ⟨["Couldn\x27t retrieve the route."], ["Error fetching route: " ++ e], none⟩ :=
  ⟨rfl, rfl⟩

/-- C7: on any transport failure of the real-time data call,
fetch_realtime_data prints the diagnostic line and returns the pair
(None, None); it never escapes as an exception. -/
theorem C7_realtime_transport_failure (mode e : String) :
    fetch_realtime_data mode (.transportError e) =
      ((none, none), ["Error fetching real-time data: " ++ e]) := rfl

/-- C8: the mode argument of fetch_route has no effect: two invocations with
different modes and identical coordinates issue identical requests, that
request targets the driving-profile endpoint, and the two runs produce
identical results on every response environment. -/
theorem C8_mode_noninterference (s e : Coord) (m₁ m₂ : String)
    (resp : HttpResult RoutingBody) :
    fetch_route_request s e m₁ = fetch_route_request s e m₂ ∧
    (fetch_route_request s e m₁).url = OSM_ROUTING_API_URL ++ routePath s e ∧
    fetch_route s e m₁ resp = fetch_route s e m₂ resp :=
  ⟨rfl, rfl, rfl⟩

/-- C3: on any routing response that contains at least one route,
fetch_route returns the first route, and the distance computed by the
driver on line 75 is exactly that route distance field divided by 1000. -/
theorem C3_distance_conversion (r : Route) (rs : List Route) (d : ℚ)
    (h : List.lookup "distance" r = some d) :
    fetch_route start_location end_location "car" (.ok ⟨some (r :: rs)⟩) =
      (.val (some r), []) ∧
    main_distance_km r = some (d / 1000) := by
  refine ⟨rfl, ?_⟩
  simp [main_distance_km, h]
  norm_num

/-- Witness for C3 at the concrete route with distance 500000. -/
theorem C3_distance_conversion_witness :
    fetch_route start_location end_location "car"
        (.ok ⟨some [[("distance", 500000)]]⟩) =
      (.val (some [("distance", 500000)]), []) ∧
    main_distance_km [("distance", 500000)] = some (500000 / 1000) :=
  C3_distance_conversion [("distance", 500000)] [] 500000 (by decide)

/-- C4: calculate_emissions returns 0.0 for modes bike and walk at every
nonnegative distance, and returns 27.1 for mode car at distance 100. -/
theorem C4_zero_modes_and_car (d : ℚ) (h : 0 ≤ d) :
    (calculate_emissions d "bike").1 = some 0 ∧
    (calculate_emissions d "walk").1 = some 0 ∧
    (calculate_emissions 100 "car").1 = some 27.1 := by
  refine ⟨?_, ?_, ?_⟩ <;> simp [calculate_emissions, EMISSION_FACTORS, List.lookup] <;> norm_num

/-- Witness for C4 at distance 5. -/
theorem C4_zero_modes_and_car_witness :
    (0 : ℚ) ≤ 5 ∧
    ((calculate_emissions 5 "bike").1 = some 0 ∧
     (calculate_emissions 5 "walk").1 = some 0 ∧
     (calculate_emissions 100 "car").1 = some 27.1) :=
  ⟨by norm_num, C4_zero_modes_and_car 5 (by norm_num)⟩

/-- C9: on a successful (2xx, well-formed) real-time response,
fetch_realtime_data prints nothing, and a body lacking the cost key or the
emissions key silently yields None in the corresponding position — the same
value the caller sees in that position after a transport failure. -/
theorem C9_missing_field_silent (mode : String) (body : RealtimeBody) :
    (fetch_realtime_data mode (.ok body)).2 = [] ∧
    (List.lookup "cost" body = none →
      (fetch_realtime_data mode (.ok body)).1.1 = none) ∧
    (List.lookup "emissions" body = none →
      (fetch_realtime_data mode (.ok body)).1.2 = none) := by
  refine ⟨rfl, ?_, ?_⟩ <;> intro h <;> simp [fetch_realtime_data, h]

/-- Witness for C9 at the empty response body. -/
theorem C9_missing_field_silent_witness :
    (fetch_realtime_data "car" (.ok [])).2 = [] ∧
    (fetch_realtime_data "car" (.ok [])).1.1 = none ∧
    (fetch_realtime_data "car" (.ok [])).1.2 = none :=
  ⟨(C9_missing_field_silent "car" []).1,
   (C9_missing_field_silent "car" []).2.1 (by decide),
   (C9_missing_field_silent "car" []).2.2 (by decide)⟩

/-- Helper: the driver on a successful routing response whose first route is
nonempty and carries a distance field runs to the end of main, assembling
the report from the two remaining calls. -/
theorem driver_ok_distance (s e : Coord) (mo : String) (r : Route) (rs : List Route)
    (rt : HttpResult RealtimeBody) (d : ℚ)
    (hne : r ≠ []) (h : List.lookup "distance" r = some d) :
    driver s e mo (.ok ⟨some (r :: rs)⟩) rt =
      ⟨["Route from " ++ coordStr s ++ " to " ++ coordStr e ++ " via " ++ mo ++ ":",
        "Distance: " ++ formatFixed2 (d / 1000) ++ " km"]
        ++ (if numTruthy (fetch_realtime_data mo rt).1.1 then
              ["Estimated cost: $" ++ formatFixed2 ((fetch_realtime_data mo rt).1.1.getD 0)]
            else [])
        ++ (match (calculate_emissions (d / 1000) mo).1 with
            | some v => ["Estimated emissions: " ++ formatFixed2 v ++ " kg CO2"]
            | none => []),
       (fetch_realtime_data mo rt).2 ++ (calculate_emissions (d / 1000) mo).2, none⟩ := by
  have hfalse : routeFalsy (some r) = false := by
    cases r with
    | nil => simp at hne
    | cons p ps => rfl
  simp [driver, fetch_route, hfalse, h]

/-- C5: for every mode outside the factor table, calculate_emissions prints
the factor-not-found line and returns None, and the driver sequence is not
aborted: on a good route it still terminates without an uncaught exception,
printing the header and distance lines (and no emissions line). -/
theorem C5_unknown_mode (dkm : ℚ) (mode : String) (s e : Coord) (dist : ℚ)
    (rt : HttpResult RealtimeBody)
    (h : mode ∉ (["car", "bus", "bike", "walk"] : List String)) :
    calculate_emissions dkm mode =
      (none, ["Emission factor for mode \x27" ++ mode ++ "\x27 not found"]) ∧
    (driver s e mode (.ok ⟨some [[("distance", dist)]]⟩) rt).exn = none := by
  simp only [List.mem_cons, List.not_mem_nil, or_false, not_or] at h
  obtain ⟨h1, h2, h3, h4⟩ := h
  have hl : List.lookup mode EMISSION_FACTORS = none := by
    simp [EMISSION_FACTORS, List.lookup, beq_eq_false_iff_ne.mpr h1,
      beq_eq_false_iff_ne.mpr h2, beq_eq_false_iff_ne.mpr h3, beq_eq_false_iff_ne.mpr h4]
  refine ⟨by simp [calculate_emissions, hl], ?_⟩
  rw [driver_ok_distance s e mode _ [] rt dist (by simp) (by simp [List.lookup])]

/-- Witness for C5 at the concrete unknown mode "train". -/
theorem C5_unknown_mode_witness :
    calculate_emissions 5 "train" =
      (none, ["Emission factor for mode \x27train\x27 not found"]) ∧
    (driver start_location end_location "train"
        (.ok ⟨some [[("distance", 500000)]]⟩) (.transportError "x")).exn = none :=
  C5_unknown_mode 5 "train" start_location end_location 500000
    (.transportError "x") (by decide)

/-- C6: routing succeeds with first-route distance 500000 metres, the mode
is car, and the real-time call fails: the report consists of exactly the
header, the line Distance: 500.00 km and the line
Estimated emissions: 135.50 kg CO2 — in particular no cost line — while the
real-time failure goes to the diagnostic log and no exception escapes. -/
theorem C6_scenario_500km (r : Route) (e : String)
    (h : List.lookup "distance" r = some 500000) :
    main (.ok ⟨some [r]⟩) (.transportError e) =
      ⟨["Route from " ++ coordStr start_location ++ " to " ++ coordStr end_location
          ++ " via " ++ "car" ++ ":",
        "Distance: 500.00 km",
        "Estimated emissions: 135.50 kg CO2"],
       ["Error fetching real-time data: " ++ e], none⟩ := by
  have hne : r ≠ [] := by rintro rfl; simp [List.lookup] at h
  rw [main, driver_ok_distance start_location end_location "car" r [] _ 500000 hne h]
  have h1 : (500000 : ℚ) / 1000 = mkRat 500 1 := by
    rw [Rat.mkRat_eq_div]; norm_num
  have hE : calculate_emissions (mkRat 500 1) "car" = (some (mkRat 271 2), []) := by
    simp only [calculate_emissions, EMISSION_FACTORS, List.lookup, beq_self_eq_true]
    rw [show mkRat 500 1 * (0.271 : ℚ) = mkRat 271 2 by
      rw [Rat.mkRat_eq_div, Rat.mkRat_eq_div]; norm_num]
  rw [h1, hE]
  rfl

/-- Witness for C6 at the concrete one-field route and error message. -/
theorem C6_scenario_500km_witness :
    main (.ok ⟨some [[("distance", 500000)]]⟩) (.transportError "boom") =
      ⟨["Route from " ++ coordStr start_location ++ " to " ++ coordStr end_location
          ++ " via " ++ "car" ++ ":",
        "Distance: 500.00 km",
        "Estimated emissions: 135.50 kg CO2"],
       ["Error fetching real-time data: " ++ "boom"], none⟩ :=
  C6_scenario_500km [("distance", 500000)] "boom" (by decide)

/-- C10 counterexample: a successful routing response whose first route is
the empty object is a successful fetch whose first route lacks the distance
field, yet main raises no KeyError: the empty dict is falsy on line 70, so
main prints the could-not-retrieve line and returns normally. -/
theorem C10_counterexample :
    fetch_route start_location end_location "car" (.ok ⟨some [[]]⟩) =
      (.val (some []), []) ∧
    List.lookup "distance" ([] : Route) = none ∧
    main (.ok ⟨some [[]]⟩) (.transportError "x") =
      ⟨["Couldn\x27t retrieve the route."], [], none⟩ :=
  ⟨rfl, rfl, rfl⟩

/-- C10 amended: when the first returned route carries a distance field the
access on line 75 succeeds and main terminates without an uncaught
exception; when the first route is non-empty (hence truthy) but lacks the
distance field, main terminates with an uncaught KeyError; a first route
that is the empty object is instead caught by the falsiness test on
line 70. -/
theorem C10_amended (r : Route) (rs : List Route) (rt : HttpResult RealtimeBody) :
    (∀ d : ℚ, List.lookup "distance" r = some d →
      (main (.ok ⟨some (r :: rs)⟩) rt).exn = none) ∧
    (r ≠ [] → List.lookup "distance" r = none →
      (main (.ok ⟨some (r :: rs)⟩) rt).exn = some "KeyError: \x27distance\x27") := by
  constructor
  · intro d hd
    have hne : r ≠ [] := by rintro rfl; simp [List.lookup] at hd
    rw [main, driver_ok_distance start_location end_location "car" r rs rt d hne hd]
  · intro hne hd
    have hfalse : routeFalsy (some r) = false := by
      cases r with
      | nil => simp at hne
      | cons p ps => rfl
    simp [main, driver, fetch_route, hfalse, hd]

/-- Witness for C10 amended: a route with a distance field runs to the end;
a non-empty route without one dies with the KeyError. -/
theorem C10_amended_witness :
    (main (.ok ⟨some [[("distance", 500000)]]⟩) (.transportError "x")).exn = none ∧
    (main (.ok ⟨some [[("duration", 5)]]⟩) (.transportError "x")).exn =
      some "KeyError: \x27distance\x27" :=
  ⟨(C10_amended [("distance", 500000)] [] (.transportError "x")).1 500000 (by decide),
   (C10_amended [("duration", 5)] [] (.transportError "x")).2 (by decide) (by decide)⟩

end EcoCommute
